import Mathlib

/-!
Verification of the role-based routing middleware (`middleware.ts` and
`middleware.js`).  The middleware is a pure decision function over the
request path and the two credential cookies (`access_token`, `user_role`);
we embed it shallowly: paths and cookie values are `String`s, absent
cookies are `Option.none`, and the returned `NextResponse` is abstracted
into a three-way `Decision` (pass through, redirect, or redirect while
clearing both cookies).
-/

namespace RoleMiddleware

/-- Outcome of the middleware: pass the request through unchanged,
redirect it to a target path, or redirect it while deleting both
credential cookies (the corrupted-auth-state branch). -/
inductive Decision where
  | Allow : Decision
  | Redirect : String → Decision
  | RedirectAndClearCredentials : String → Decision
deriving DecidableEq

/-- `charsLeading xs ys` holds when the list `xs` is a leading segment of
the list `ys`. -/
def charsLeading : List Char → List Char → Bool
  | [], _ => true
  | _ :: _, [] => false
  | a :: as, b :: bs => a == b && charsLeading as bs

/-- JavaScript `String.prototype.startsWith`, on the character sequences
of the two strings. -/
def strStartsWith (s pre : String) : Bool :=
  charsLeading pre.data s.data

/-- `PUBLIC_ROUTES` from the source: routes that do not require
authentication. -/
def PUBLIC_ROUTES : List String :=
  ["/", "/public", "/login", "/register", "/admin/login", "/supplier/login",
   "/courier/login", "/reset-password", "/forgot-password", "/verify-signup",
   "/callback"]

/-- `EXCLUDED_PATHS` from the source: static assets and API routes the
middleware never evaluates. -/
def EXCLUDED_PATHS : List String :=
  ["/_next", "/api", "/public", "/favicon.ico"]

/-- `ROLE_ACCESS_MAP` from the source, as a total function on the role
cookie string; a key that is not one of the four roles yields `[]`,
matching the JavaScript `ROLE_ACCESS_MAP[role] || []` lookup. -/
def ROLE_ACCESS_MAP (role : String) : List String :=
  if role = "ADMIN" then ["/admin", "/dashboard"]
  else if role = "VENDOR" then ["/supplier"]
  else if role = "DELIVERY" then ["/courier"]
  else if role = "CLIENT" then ["/account", "/orders", "/cart", "/notifications"]
  else []

/-- `ROLE_DASHBOARD_MAP` from the source; `none` models the JavaScript
`undefined` for a key outside the four roles (the call sites apply the
`|| "/"` fallback). -/
def ROLE_DASHBOARD_MAP (role : String) : Option String :=
  if role = "ADMIN" then some "/admin/dashboard"
  else if role = "VENDOR" then some "/supplier/dashboard"
  else if role = "DELIVERY" then some "/courier/dashboard"
  else if role = "CLIENT" then some "/account"
  else none

/-- JavaScript truthiness of an optional cookie value: absent and the
empty string are falsy, every other string is truthy. -/
def truthy : Option String → Bool
  | none => false
  | some s => !(s == "")

/-- `isExcludedPath` from `middleware.ts`. -/
def isExcludedPath (path : String) : Bool :=
  EXCLUDED_PATHS.any (fun excludedPath => strStartsWith path excludedPath)

/-- `isPublicRoute` from `middleware.ts`: per entry, an exact-match early
return for the root entry, then an unconditional fall-through to the
string-prefix test (also for the root entry). -/
def isPublicRoute (path : String) : Bool :=
  PUBLIC_ROUTES.any (fun publicRoute =>
    if publicRoute = "/" ∧ path = "/" then true
    else strStartsWith path publicRoute)

/-- `isLoginRoute` from `middleware.ts`. -/
def isLoginRoute (path : String) : Bool :=
  ["/login", "/admin/login", "/supplier/login", "/courier/login"].any
    (fun loginRoute => strStartsWith path loginRoute)

/-- `determineLoginPath` from `middleware.ts`. -/
def determineLoginPath (path : String) : String :=
  if strStartsWith path "/admin" then "/admin/login"
  else if strStartsWith path "/supplier" then "/supplier/login"
  else if strStartsWith path "/courier" then "/courier/login"
  else "/login"

/-- `hasRoleAccess` from `middleware.ts` (the `|| []` fallback is folded
into `ROLE_ACCESS_MAP`). -/
def hasRoleAccess (userRole : String) (currentPath : String) : Bool :=
  (ROLE_ACCESS_MAP userRole).any (fun allowedRoute =>
    strStartsWith currentPath allowedRoute)

/-- `Object.values(ROLE_ACCESS_MAP).flat()` in insertion order. -/
def allProtectedRoutes : List String :=
  (["ADMIN", "VENDOR", "DELIVERY", "CLIENT"].map ROLE_ACCESS_MAP).flatten

/-- `isProtectedRoute` from `middleware.ts`. -/
def isProtectedRoute (path : String) : Bool :=
  allProtectedRoutes.any (fun protectedRoute => strStartsWith path protectedRoute)

/-- The decision function of `middleware.ts`.  `pathname` is the request
path; `token` and `role` are the optional `access_token` and `user_role`
cookie values.  `NextResponse.next()` becomes `Allow`,
`NextResponse.redirect` becomes `Redirect`, and the corrupted-auth branch
(redirect plus deletion of both cookies) becomes
`RedirectAndClearCredentials`. -/
def middleware (pathname : String) (token role : Option String) : Decision :=
  if isExcludedPath pathname then Decision.Allow
  else if isPublicRoute pathname then
    if truthy token && truthy role && isLoginRoute pathname then
      Decision.Redirect ((ROLE_DASHBOARD_MAP (role.getD "")).getD "/")
    else Decision.Allow
  else if !truthy token then
    Decision.Redirect (determineLoginPath pathname)
  else if truthy role then
    if isProtectedRoute pathname && !hasRoleAccess (role.getD "") pathname then
      Decision.Redirect ((ROLE_DASHBOARD_MAP (role.getD "")).getD "/")
    else Decision.Allow
  else
    Decision.RedirectAndClearCredentials "/login"

/-- The decision function of `middleware.js`, embedded separately with
the inline checks and nested conditionals of the JavaScript file. -/
def middlewareJS (pathname : String) (token role : Option String) : Decision :=
  if EXCLUDED_PATHS.any (fun path => strStartsWith pathname path) then
    Decision.Allow
  else if PUBLIC_ROUTES.any (fun route =>
      if route = "/" ∧ pathname = "/" then true
      else strStartsWith pathname route) then
    if truthy token && truthy role then
      if ["/login", "/admin/login", "/supplier/login", "/courier/login"].any
          (fun route => strStartsWith pathname route) then
        Decision.Redirect ((ROLE_DASHBOARD_MAP (role.getD "")).getD "/")
      else Decision.Allow
    else Decision.Allow
  else if !truthy token then
    Decision.Redirect
      (if strStartsWith pathname "/admin" then "/admin/login"
       else if strStartsWith pathname "/supplier" then "/supplier/login"
       else if strStartsWith pathname "/courier" then "/courier/login"
       else "/login")
  else if truthy role then
    if (["ADMIN", "VENDOR", "DELIVERY", "CLIENT"].map ROLE_ACCESS_MAP).flatten.any
        (fun route => strStartsWith pathname route) then
      if !(ROLE_ACCESS_MAP (role.getD "")).any
          (fun allowedRoute => strStartsWith pathname allowedRoute) then
        Decision.Redirect ((ROLE_DASHBOARD_MAP (role.getD "")).getD "/")
      else Decision.Allow
    else Decision.Allow
  else
    Decision.RedirectAndClearCredentials "/login"

/-- The nine paths that can appear as redirect targets: the four
dashboards, the root fallback, and the four login pages. -/
def redirectTargets : List String :=
  ["/admin/dashboard", "/supplier/dashboard", "/courier/dashboard", "/account",
   "/", "/admin/login", "/supplier/login", "/courier/login", "/login"]

lemma dashboard_fallback_mem (s : String) :
    (ROLE_DASHBOARD_MAP s).getD "/" ∈ redirectTargets := by
  unfold ROLE_DASHBOARD_MAP redirectTargets
  repeat' split
  all_goals decide

lemma loginPath_mem (p : String) : determineLoginPath p ∈ redirectTargets := by
  unfold determineLoginPath redirectTargets
  repeat' split
  all_goals decide

lemma middleware_cases (p : String) (t r : Option String) :
    middleware p t r = Decision.Allow ∨
    middleware p t r = Decision.Redirect ((ROLE_DASHBOARD_MAP (r.getD "")).getD "/") ∨
    middleware p t r = Decision.Redirect (determineLoginPath p) ∨
    middleware p t r = Decision.RedirectAndClearCredentials "/login" := by
  unfold middleware
  repeat' split
  all_goals simp

lemma if_and_nest {α : Type} (a b : Bool) (x y : α) :
    (if a && b then x else y) = if a then (if b then x else y) else y := by
  cases a <;> cases b <;> rfl

/-- Claim C1: the claim states that a path is classified public exactly
when it equals "/" or starts with a non-root entry, with the "/" entry
matching only by exact equality.  The code violates this: for the "/"
entry the callback falls through to the prefix test, so "/admin/users"
(equal to no entry and a prefix-extension of no non-root entry) is
nevertheless classified public. -/
theorem C1_root_entry_prefix_fallthrough :
    isPublicRoute "/admin/users" = true ∧
    "/admin/users" ≠ "/" ∧
    ∀ route ∈ PUBLIC_ROUTES, route ≠ "/" →
      strStartsWith "/admin/users" route = false := by
  decide

/-- Claim C2: any path that begins with "/" and escapes the excluded
prefixes is classified public, so the authentication branch and the
corrupted-credential branch never run: the decision is Allow or a
redirect to the dashboard of the role cookie (with "/" as fallback). -/
theorem C2_slash_paths_public (p : String) (t r : Option String)
    (h1 : strStartsWith p "/" = true) (h2 : isExcludedPath p = false) :
    isPublicRoute p = true ∧
    (middleware p t r = Decision.Allow ∨
     middleware p t r = Decision.Redirect ((ROLE_DASHBOARD_MAP (r.getD "")).getD "/")) := by
  have hpub : isPublicRoute p = true := by
    unfold isPublicRoute PUBLIC_ROUTES
    simp only [List.any_cons, Bool.or_eq_true]
    left
    by_cases hp : p = "/"
    · simp [hp]
    · simp [hp, h1]
  refine ⟨hpub, ?_⟩
  unfold middleware
  rw [h2, hpub]
  cases hc : truthy t && truthy r && isLoginRoute p <;> simp [hc]

/-- Witness for C2 at path "/account" with a token and no role. -/
theorem C2_slash_paths_public_witness :
    isPublicRoute "/account" = true ∧
    (middleware "/account" (some "t") none = Decision.Allow ∨
     middleware "/account" (some "t") none =
       Decision.Redirect ((ROLE_DASHBOARD_MAP ((none : Option String).getD "")).getD "/")) :=
  C2_slash_paths_public "/account" (some "t") none (by decide) (by decide)

/-- Claim C3: the claim states that with no token, "/courier/orders" is
redirected to "/courier/login".  The code instead returns Allow, because
"/courier/orders" is classified public by the root-entry fall-through;
the login-variant mapping itself does send "/courier/orders" to
"/courier/login", but the middleware never reaches it. -/
theorem C3_unauthenticated_courier_allowed :
    middleware "/courier/orders" none none = Decision.Allow ∧
    middleware "/courier/orders" none (some "ADMIN") = Decision.Allow ∧
    determineLoginPath "/courier/orders" = "/courier/login" := by
  decide

/-- Claim C4: the claim states that a VENDOR requesting
"/courier/orders" is redirected to "/supplier/dashboard".  The code
instead returns Allow: the path is classified public by the root-entry
fall-through, although the VENDOR roleAccess entry indeed does not cover
it. -/
theorem C4_cross_role_allowed :
    middleware "/courier/orders" (some "t") (some "VENDOR") = Decision.Allow ∧
    hasRoleAccess "VENDOR" "/courier/orders" = false := by
  decide

/-- Claim C5: the claim states that a token with no role on "/account"
yields RedirectAndClearCredentials("/login"), and the follow-up request
with no credentials yields Redirect("/login").  The code returns Allow in
both situations: "/account" is classified public by the root-entry
fall-through, so neither the corrupted-state branch nor the no-token
branch is reached. -/
theorem C5_corrupted_state_allowed :
    middleware "/account" (some "t") none = Decision.Allow ∧
    middleware "/account" none none = Decision.Allow := by
  decide

/-- Counterexample for claim C6: with a token, the unrecognized role
"HACKER" on "/login" is redirected to "/" while an absent role is
allowed through, so an unrecognized role does not behave like an absent
role. -/
theorem C6_unknown_role_differs_from_absent :
    middleware "/login" (some "t") (some "HACKER") = Decision.Redirect "/" ∧
    middleware "/login" (some "t") none = Decision.Allow := by
  decide

/-- Claim C6 (amended): only an empty role cookie behaves identically to
an absent role; a nonempty unrecognized role string is treated as a
present role whose access list is empty and whose dashboard falls back
to "/": with a token it is redirected to "/" on login pages and on
role-gated paths, allowed elsewhere, and never reaches the
clear-credentials branch. -/
theorem C6_empty_role_as_absent_unknown_role_present
    (p : String) (t : Option String) (tk s : String)
    (htk : tk ≠ "") (hs0 : s ≠ "") (hA : s ≠ "ADMIN") (hV : s ≠ "VENDOR")
    (hD : s ≠ "DELIVERY") (hC : s ≠ "CLIENT") :
    middleware p t (some "") = middleware p t none ∧
    middleware p (some tk) (some s) =
      (if isExcludedPath p then Decision.Allow
       else if isPublicRoute p then
         if isLoginRoute p then Decision.Redirect "/" else Decision.Allow
       else if isProtectedRoute p then Decision.Redirect "/"
       else Decision.Allow) := by
  constructor
  · rfl
  · have htk2 : truthy (some tk) = true := by simp [truthy, htk]
    have hs2 : truthy (some s) = true := by simp [truthy, hs0]
    have hacc : ROLE_ACCESS_MAP s = [] := by
      unfold ROLE_ACCESS_MAP
      simp [hA, hV, hD, hC]
    have hdash : ROLE_DASHBOARD_MAP s = none := by
      unfold ROLE_DASHBOARD_MAP
      simp [hA, hV, hD, hC]
    unfold middleware
    simp [htk2, hs2, hasRoleAccess, hacc, hdash]

/-- Witness for the amended C6 at path "/login", token "t", role
"HACKER". -/
theorem C6_empty_role_as_absent_unknown_role_present_witness :
    middleware "/login" none (some "") = middleware "/login" none none ∧
    middleware "/login" (some "t") (some "HACKER") =
      (if isExcludedPath "/login" then Decision.Allow
       else if isPublicRoute "/login" then
         if isLoginRoute "/login" then Decision.Redirect "/" else Decision.Allow
       else if isProtectedRoute "/login" then Decision.Redirect "/"
       else Decision.Allow) :=
  C6_empty_role_as_absent_unknown_role_present "/login" none "t" "HACKER"
    (by decide) (by decide) (by decide) (by decide) (by decide) (by decide)

/-- Claim C7: a path starting with an excluded prefix is always allowed,
whatever the token and role cookies hold; the exclusion check is the
first test and short-circuits everything else. -/
theorem C7_excluded_always_allow (p : String) (t r : Option String)
    (h : isExcludedPath p = true) : middleware p t r = Decision.Allow := by
  unfold middleware
  rw [h]
  simp

/-- Witness for C7 at "/api/users" with an authenticated admin. -/
theorem C7_excluded_always_allow_witness :
    isExcludedPath "/api/users" = true ∧
    middleware "/api/users" (some "t") (some "ADMIN") = Decision.Allow :=
  ⟨by decide, C7_excluded_always_allow "/api/users" (some "t") (some "ADMIN") (by decide)⟩

/-- Claim C8: an authenticated ADMIN requesting "/admin/login" is
redirected to "/admin/dashboard". -/
theorem C8_authenticated_login_redirect :
    middleware "/admin/login" (some "t") (some "ADMIN") =
      Decision.Redirect "/admin/dashboard" := by
  decide

/-- Claim C9: the JavaScript and TypeScript middlewares compute the same
decision on every input. -/
theorem C9_js_ts_equivalent (p : String) (t r : Option String) :
    middlewareJS p t r = middleware p t r := by
  unfold middlewareJS middleware isExcludedPath isPublicRoute isLoginRoute
    determineLoginPath hasRoleAccess isProtectedRoute allProtectedRoutes
  simp only [if_and_nest]

/-- Claim C10: every redirect target lies in the fixed nine-element set
of dashboards and login pages, so the gate never redirects to the
request's own path when that path is outside the set. -/
theorem C10_redirect_targets_closed (p : String) (t r : Option String) :
    (∀ tgt : String,
        (middleware p t r = Decision.Redirect tgt ∨
         middleware p t r = Decision.RedirectAndClearCredentials tgt) →
        tgt ∈ redirectTargets) ∧
    (p ∉ redirectTargets →
        middleware p t r ≠ Decision.Redirect p ∧
        middleware p t r ≠ Decision.RedirectAndClearCredentials p) := by
  have key : ∀ tgt : String,
      (middleware p t r = Decision.Redirect tgt ∨
       middleware p t r = Decision.RedirectAndClearCredentials tgt) →
      tgt ∈ redirectTargets := by
    intro tgt htgt
    rcases middleware_cases p t r with h | h | h | h <;>
      rcases htgt with h2 | h2 <;> rw [h] at h2 <;>
      first
        | exact Decision.noConfusion h2
        | (injection h2 with h3
           rw [← h3]
           first
             | exact dashboard_fallback_mem _
             | exact loginPath_mem p
             | decide)
  exact ⟨key, fun hp =>
    ⟨fun hcon => hp (key p (Or.inl hcon)),
     fun hcon => hp (key p (Or.inr hcon))⟩⟩

/-- Witness for C10: the target "/admin/dashboard" produced on "/login"
with an authenticated admin is in the closed set, and a request for a
path outside the set is never redirected to itself. -/
theorem C10_redirect_targets_closed_witness :
    "/admin/dashboard" ∈ redirectTargets ∧
    middleware "/nonexistent" (some "t") (some "ADMIN") ≠
      Decision.Redirect "/nonexistent" :=
  ⟨(C10_redirect_targets_closed "/login" (some "t") (some "ADMIN")).1
      "/admin/dashboard" (Or.inl (by decide)),
   ((C10_redirect_targets_closed "/nonexistent" (some "t") (some "ADMIN")).2
      (by decide)).1⟩

end RoleMiddleware
